import Mathlib

/-!
Shallow embedding of the go-snowboy detection routing and silence-accumulation
engine (`snowboy.go`).  Pure Go functions become Lean functions; the mutating
methods on `Detector` become explicit state-passing functions returning the
updated `Detector`.  `time.Duration` (an int64 nanosecond count) is modelled by
`Int`; Go byte slices by `List Nat`; the opaque external recognition engine
(`snowboydetect.SnowboyDetect`) by an `Engine` record holding its per-chunk
result oracle and its audio-format accessors.  The float32 sensitivity is
modelled by `ℚ` (every float32 is an exact rational), and
`strconv.FormatFloat(., 'f', 2, 64)` by the two-decimal rounding formatter
`formatF2` below.  Handler values are opaque; we track them by a numeric id so
that "which handler was invoked, with which keyword" is observable.
-/

set_option maxRecDepth 40000

namespace GoSnowboy

/-- `snowboyResultSilence = -2` from the source's result-code constants. -/
def snowboyResultSilence : Int := -2

/-- `snowboyResultError = -1` from the source's result-code constants. -/
def snowboyResultError : Int := -1

/-- `snowboyResultNoDetection = 0` from the source's result-code constants. -/
def snowboyResultNoDetection : Int := 0

/-- The error values produced by the package: `NoHandler`
("No handler installed"), `SnowboyLibraryError` ("snowboy library error"),
the `Close` error ("snowboy not initialize") and an opaque error coming from
the audio source (`io.Reader`). -/
inductive GoError where
  | noHandler
  | snowboyLibraryError
  | notInitialized
  | sourceErr
deriving DecidableEq, Repr

/-- `handlerKeyword`: a registered handler (tracked by an opaque numeric id)
together with the keyword string passed to `Handler.Detected`. -/
structure HandlerKeyword where
  handlerId : Nat
  keyword : String
deriving DecidableEq, Repr

/-- `Hotword`: model filename, sensitivity (float32 modelled as `ℚ`), and the
name used in `Detected` calls. -/
structure Hotword where
  Model : String
  Sensitivity : ℚ
  Name : String
deriving DecidableEq, Repr

/-- The `Detector` struct.  `raw` (the native engine pointer) is external and
not part of the state; the engine itself is passed separately as an `Engine`
oracle where the code consults it. -/
structure Detector where
  initialized : Bool
  handlers : List (Int × HandlerKeyword)
  modelStr : String
  sensitivityStr : String
  silenceThreshold : Int
  silenceElapsed : Int
  ResourceFile : String
  AudioGain : ℚ
deriving DecidableEq, Repr

/-- The external recognition engine: its per-chunk result (`RunDetection`) and
its audio-format accessors (`SampleRate`, `NumChannels`, `BitsPerSample`). -/
structure Engine where
  detect : List Nat → Int
  sampleRate : Nat
  numChannels : Nat
  bitsPerSample : Nat

/-- `NewDetector`: a fresh detector with the given resource file and the
default gain 1.0; all other fields are Go zero values. -/
def NewDetector (resourceFile : String) : Detector :=
  { initialized := false
    handlers := []
    modelStr := ""
    sensitivityStr := ""
    silenceThreshold := 0
    silenceElapsed := 0
    ResourceFile := resourceFile
    AudioGain := 1 }

/-- Lookup in the handlers map (Go `d.handlers[result]`). -/
def lookupKey (m : List (Int × HandlerKeyword)) (k : Int) : Option HandlerKeyword :=
  match m with
  | [] => none
  | (k2, v) :: rest => if k2 = k then some v else lookupKey rest k

/-- Insert-or-replace in the handlers map (Go `d.handlers[k] = v`).  The list
always keeps one entry per key, so its length is the Go `len(d.handlers)`. -/
def mapInsert (m : List (Int × HandlerKeyword)) (k : Int) (v : HandlerKeyword) :
    List (Int × HandlerKeyword) :=
  if (lookupKey m k).isSome then
    m.map (fun p => if p.1 = k then (k, v) else p)
  else m ++ [(k, v)]

/-- Round-half-even of `n / d` (with `d = q.den`, `n = 100 * q.num`), the tie
behaviour of Go's binary-exact decimal conversion. -/
def roundDiv (n d : Nat) : Nat :=
  let w := n / d
  let r := n % d
  if d < 2 * r then w + 1 else if 2 * r < d then w else if w % 2 = 0 then w else w + 1

/-- Models `strconv.FormatFloat(float64(s), 'f', 2, 64)` for nonnegative
float32-exact rationals: the two-decimal fixed representation. -/
def formatF2 (q : ℚ) : String :=
  let c := roundDiv (q.num.toNat * 100) q.den
  Nat.repr (c / 100) ++ "." ++ (if c % 100 < 10 then "0" else "") ++ Nat.repr (c % 100)

/-- `Detector.Handle`: append the hotword's model and formatted sensitivity to
the joined configuration strings (with a comma separator when the handlers map
is nonempty) and bind the handler at key `len(d.handlers) + 1`. -/
def Detector.Handle (d : Detector) (hotword : Hotword) (handlerId : Nat) : Detector :=
  let d1 : Detector :=
    if d.handlers.length > 0 then
      { d with modelStr := d.modelStr ++ ","
               sensitivityStr := d.sensitivityStr ++ "," }
    else d
  let d2 : Detector :=
    { d1 with modelStr := d1.modelStr ++ hotword.Model
              sensitivityStr := d1.sensitivityStr ++ formatF2 hotword.Sensitivity }
  let hk : HandlerKeyword := { handlerId := handlerId, keyword := hotword.Name }
  { d2 with handlers := mapInsert d2.handlers (Int.ofNat d2.handlers.length + 1) hk }

/-- `Detector.HandleFunc` wraps the function as a `handlerFunc` and delegates
to `Handle`; with handlers tracked by id the wrapper is the identity. -/
def Detector.HandleFunc (d : Detector) (hotword : Hotword) (handlerId : Nat) : Detector :=
  d.Handle hotword handlerId

/-- `Detector.HandleSilence`: set the silence threshold and bind the handler at
the silence key `-2` with keyword "silence". -/
def Detector.HandleSilence (d : Detector) (threshold : Int) (handlerId : Nat) : Detector :=
  let hk : HandlerKeyword := { handlerId := handlerId, keyword := "silence" }
  { d with silenceThreshold := threshold
           handlers := mapInsert d.handlers snowboyResultSilence hk }

/-- `Detector.HandleSilenceFunc` wraps the function and delegates to
`HandleSilence`. -/
def Detector.HandleSilenceFunc (d : Detector) (threshold : Int) (handlerId : Nat) : Detector :=
  d.HandleSilence threshold handlerId

/-- `Detector.Close`: if initialized, mark uninitialized and free the native
engine (returns `nil`); otherwise return the "snowboy not initialize" error. -/
def Detector.Close (d : Detector) : Detector × Option GoError :=
  if d.initialized then ({ d with initialized := false }, none)
  else (d, some GoError.notInitialized)

/-- `Detector.route`: map a result code to an error or a handler invocation.
The third component records the invocation (`handlerKeyword.call()`) as the
pair (handler id, keyword), or `none` when no handler was called. -/
def Detector.route (d : Detector) (result : Int) :
    Detector × Option GoError × Option (Nat × String) :=
  if result = snowboyResultError then
    (d, some GoError.snowboyLibraryError, none)
  else if result ≠ snowboyResultNoDetection then
    match lookupKey d.handlers result with
    | some hk =>
      if result = snowboyResultSilence ∧ d.silenceElapsed < d.silenceThreshold then
        (d, none, none)
      else
        ({ d with silenceElapsed := 0 }, none, some (hk.handlerId, hk.keyword))
    | none => (d, some GoError.noHandler, none)
  else (d, none, none)

/-- `Detector.runDetection`: empty chunks short-circuit to result 0; otherwise
the engine is consulted, silence accumulates the chunk's duration (computed
from the engine's audio format; `AudioFormat()` also performs the lazy engine
setup, modelled by setting `initialized`), and any other result resets the
accumulator. -/
def Detector.runDetection (d : Detector) (eng : Engine) (data : List Nat) :
    Detector × Int :=
  if data.length = 0 then (d, 0)
  else
    let result := eng.detect data
    if result = snowboyResultSilence then
      let d1 : Detector := { d with initialized := true }
      let dataElapseTime : Nat :=
        data.length * 1000000000 /
          (eng.numChannels * (eng.bitsPerSample / 8) * eng.sampleRate)
      ({ d1 with silenceElapsed := d1.silenceElapsed + Int.ofNat dataElapseTime }, result)
    else
      ({ d with silenceElapsed := 0 }, result)

/-- One loop-body step of `ReadAndDetect`: `d.route(d.runDetection(bytes))`. -/
def Detector.processChunk (d : Detector) (eng : Engine) (data : List Nat) :
    Detector × Option GoError × Option (Nat × String) :=
  let p := d.runDetection eng data
  p.1.route p.2

/-- One `Read` call on the audio source: a successful read of the given bytes
(`n = bs.length`, with `n = 0` meaning "no data yet"), a read returning
`io.EOF` after writing the given (possibly empty) bytes, or a non-EOF error. -/
inductive ReadEvent where
  | data (bs : List Nat)
  | eofData (bs : List Nat)
  | fail

/-- `Read` writes the `n` returned bytes into the front of the fixed buffer;
the rest of the buffer keeps its previous (stale) contents. -/
def writeBuf (buffer bs : List Nat) : List Nat :=
  bs ++ buffer.drop bs.length

/-- Outcome of the streaming loop: the returned error (`none` = Go `nil`), the
final detector state, and the trace of the chunks passed to `runDetection`;
`outOfEvents` marks a run whose source never terminated within the modelled
event list (in Go the loop would still be blocked reading). -/
inductive LoopResult where
  | done (e : Option GoError) (d : Detector) (trace : List (List Nat))
  | outOfEvents (d : Detector) (trace : List (List Nat))
deriving DecidableEq, Repr

/-- The chunks passed to `runDetection` during the run. -/
def LoopResult.trace : LoopResult → List (List Nat)
  | .done _ _ t => t
  | .outOfEvents _ t => t

/-- The error value returned by `ReadAndDetect` (for a completed run). -/
def LoopResult.errOut : LoopResult → Option GoError
  | .done e _ _ => e
  | .outOfEvents _ _ => none

/-- The body of `ReadAndDetect`'s `for` loop, driven by the list of read
events.  Note that the source passes the entire buffer `bytes` to
`runDetection` in both the EOF branch and the success branch. -/
def readLoop (eng : Engine) (d : Detector) (buffer : List Nat)
    (trace : List (List Nat)) : List ReadEvent → LoopResult
  | [] => .outOfEvents d trace
  | ReadEvent.data bs :: rest =>
    if bs.length = 0 then
      readLoop eng d buffer trace rest
    else
      let buf := writeBuf buffer bs
      let p := d.processChunk eng buf
      match p.2.1 with
      | some err => .done (some err) p.1 (trace ++ [buf])
      | none => readLoop eng p.1 buf (trace ++ [buf]) rest
  | ReadEvent.eofData bs :: _ =>
    let buf := writeBuf buffer bs
    let p := d.processChunk eng buf
    .done p.2.1 p.1 (trace ++ [buf])
  | ReadEvent.fail :: _ => .done (some GoError.sourceErr) d trace

/-- `Detector.ReadAndDetect`: initialize the engine, allocate the fixed
2048-byte buffer (zero-filled by `make`), and run the read loop. -/
def Detector.ReadAndDetect (d : Detector) (eng : Engine) (events : List ReadEvent) :
    LoopResult :=
  readLoop eng { d with initialized := true } (List.replicate 2048 0) [] events

/-- Go's `strings.TrimRight`: remove trailing characters that are members of
the cutset (a character set, not a suffix). -/
def goTrimRight (s : String) (cutset : String) : String :=
  String.mk ((s.toList.reverse.dropWhile (fun c => cutset.toList.contains c)).reverse)

/-- Go's `strings.Split` for a single-character separator. -/
def splitOnChar (sep : Char) : List Char → List (List Char)
  | [] => [[]]
  | c :: rest =>
    match splitOnChar sep rest with
    | [] => [[c]]
    | h :: t => if c = sep then [] :: h :: t else (c :: h) :: t

/-- `strings.Split` lifted to `String`. -/
def goSplit (sep : Char) (s : String) : List String :=
  (splitOnChar sep s.toList).map String.mk

/-- `NewHotword`: derive the name with `strings.TrimRight(model, ".umdl")`
followed by taking the last `/`-separated segment. -/
def NewHotword (model : String) (sensitivity : ℚ) : Hotword :=
  let name := goTrimRight model ".umdl"
  let nameParts := goSplit '/' name
  { Model := model, Sensitivity := sensitivity, Name := nameParts.getLastD "" }

/-- `NewDefaultHotword`: sensitivity 0.5. -/
def NewDefaultHotword (model : String) : Hotword :=
  NewHotword model (mkRat 1 2)

/-- Modelled from the spec (for comparison with the source's `NewHotword`):
strip the ".umdl" model-file extension as a trailing suffix if present, then
take the final path segment. -/
def deriveNameSpec (model : String) : String :=
  let cs := model.toList
  let ext := ".umdl".toList
  let base := if ext.isSuffixOf cs then cs.take (cs.length - ext.length) else cs
  String.mk ((splitOnChar '/' base).getLastD [])

/-! ## Concrete fixtures shared by the theorems below -/

/-- An engine whose detection result is always 0 (no detection). -/
def zeroEngine : Engine :=
  { detect := fun _ => 0, sampleRate := 16000, numChannels := 1, bitsPerSample := 16 }

/-- An engine that always reports silence; at this audio format (1 sample per
second, 16-bit mono) a 1-byte chunk represents 0.5 s of audio. -/
def silEngine : Engine :=
  { detect := fun _ => snowboyResultSilence
    sampleRate := 1, numChannels := 1, bitsPerSample := 16 }

/-- A detector with a silence handler (id 7) at threshold 2 s. -/
def silDetector : Detector := (NewDetector "res").HandleSilence 2000000000 7

/-- A 1-byte chunk: 0.5 s of audio under `silEngine`'s format. -/
def silChunk : List Nat := [0]

/-- First silence chunk processed. -/
def silP1 : Detector × Option GoError × Option (Nat × String) :=
  silDetector.processChunk silEngine silChunk

/-- Second silence chunk processed. -/
def silP2 : Detector × Option GoError × Option (Nat × String) :=
  silP1.1.processChunk silEngine silChunk

/-- Third silence chunk processed. -/
def silP3 : Detector × Option GoError × Option (Nat × String) :=
  silP2.1.processChunk silEngine silChunk

/-- Fourth silence chunk processed. -/
def silP4 : Detector × Option GoError × Option (Nat × String) :=
  silP3.1.processChunk silEngine silChunk

/-- A detector built by registering the silence handler (id 0) first and then
one hotword (handler id 1) via `Handle`. -/
def c1Detector : Detector :=
  ((NewDetector "res").HandleSilence 1000000000 0).Handle (NewHotword "foo.umdl" (mkRat 1 2)) 1

/-! ## Claims -/

/-- C1: with a `HandleSilence` registration preceding it, the 1st hotword
registered via `Handle` is NOT bound to result code 1: `len(d.handlers) + 1`
counts the silence binding, so the hotword lands on code 2, a detection result
of 1 routes to the `NoHandler` error, and the joined model and sensitivity
strings get a leading comma, giving 2 comma-separated fields instead of 1.
This exhibits the failure of the claimed 1-indexed binding invariant. -/
theorem c1_silence_first_misbinding :
    lookupKey c1Detector.handlers 1 = none ∧
    lookupKey c1Detector.handlers 2 = some ⟨1, "foo"⟩ ∧
    (c1Detector.route 1).2.1 = some GoError.noHandler ∧
    c1Detector.modelStr = ",foo.umdl" ∧
    (goSplit ',' c1Detector.modelStr).length = 2 ∧
    (goSplit ',' c1Detector.sensitivityStr).length = 2 := by
  decide

/-- C2: with a registered silence handler at threshold 2 s and consecutive
0.5 s silence chunks, the first three results are suppressed (no callback, no
error) while `silenceElapsed` accumulates 0.5 s, 1 s, 1.5 s; the 4th chunk
invokes the silence handler and `silenceElapsed` is 0 immediately afterwards.
In general, a silence result whose accumulated elapsed duration is still below
the threshold is suppressed with no callback and no error. -/
theorem c2_silence_threshold :
    (silP1.2 = (none, none) ∧ silP1.1.silenceElapsed = 500000000 ∧
     silP2.2 = (none, none) ∧ silP2.1.silenceElapsed = 1000000000 ∧
     silP3.2 = (none, none) ∧ silP3.1.silenceElapsed = 1500000000 ∧
     silP4.2.1 = none ∧ silP4.2.2 = some (7, "silence") ∧ silP4.1.silenceElapsed = 0)
  ∧ ∀ (d : Detector) (hk : HandlerKeyword),
      lookupKey d.handlers snowboyResultSilence = some hk →
      d.silenceElapsed < d.silenceThreshold →
      d.route snowboyResultSilence = (d, none, none) := by
  constructor
  · decide
  · intro d hk hlk hlt
    simp only [snowboyResultSilence] at hlk
    simp [Detector.route, snowboyResultSilence, snowboyResultError,
      snowboyResultNoDetection, hlk, hlt]

/-- C2 witness: the suppression half of `c2_silence_threshold` applied to the
concrete `silDetector` (elapsed 0 below threshold 2 s). -/
theorem c2_silence_threshold_witness :
    silDetector.route snowboyResultSilence = (silDetector, none, none) :=
  c2_silence_threshold.2 silDetector ⟨7, "silence"⟩ (by decide) (by decide)

/-- C5: name derivation uses `strings.TrimRight(model, ".umdl")`, which strips
the character SET from the right, not the suffix: "world.umdl" derives "wor",
while suffix-stripping (the spec's derivation) yields "world".  The claim's
two particular examples do hold. -/
theorem c5_trimright_cutset_bug :
    (NewHotword "world.umdl" (mkRat 1 2)).Name = "wor" ∧
    deriveNameSpec "world.umdl" = "world" ∧
    (NewHotword "world.umdl" (mkRat 1 2)).Name ≠ deriveNameSpec "world.umdl" ∧
    (NewHotword "a/b/foo.umdl" (mkRat 1 2)).Name = "foo" ∧
    (NewHotword "bar.umdl" (mkRat 1 2)).Name = "bar" := by
  decide

/-- The run behind C3: one successful 4-byte read, then EOF. -/
def c3Run : LoopResult :=
  (NewDetector "res").ReadAndDetect zeroEngine
    [ReadEvent.data [1, 2, 3, 4], ReadEvent.eofData []]

/-- The run behind C4: one successful 2-byte read, then EOF with zero
leftover bytes. -/
def c4Run : LoopResult :=
  (NewDetector "res").ReadAndDetect zeroEngine
    [ReadEvent.data [7, 7], ReadEvent.eofData []]

/-- The buffer contents after the 4-byte read: the 4 new bytes followed by the
2044 stale zero bytes of the fixed 2048-byte buffer. -/
def buf3 : List Nat := [1, 2, 3, 4] ++ List.replicate 2044 0

/-- The buffer contents after the 2-byte read of the C4 run. -/
def buf4 : List Nat := [7, 7] ++ List.replicate 2046 0

lemma buf3_length : buf3.length = 2048 := by
  unfold buf3
  rw [List.length_append, List.length_replicate]
  decide

lemma buf4_length : buf4.length = 2048 := by
  unfold buf4
  rw [List.length_append, List.length_replicate]
  decide

lemma buf3_writeBuf : writeBuf (List.replicate 2048 0) [1, 2, 3, 4] = buf3 := by
  unfold writeBuf buf3
  rw [List.drop_replicate]
  norm_num

lemma buf4_writeBuf : writeBuf (List.replicate 2048 0) [7, 7] = buf4 := by
  unfold writeBuf buf4
  rw [List.drop_replicate]
  norm_num

lemma writeBuf_nil (b : List Nat) : writeBuf b [] = b := by
  simp [writeBuf]

/-- Any nonempty chunk processed under `zeroEngine` yields result 0: the
silence accumulator is reset and routing is a no-op. -/
lemma processChunk_zero (d : Detector) (data : List Nat) (h : data.length ≠ 0) :
    d.processChunk zeroEngine data = ({ d with silenceElapsed := 0 }, none, none) := by
  unfold Detector.processChunk Detector.runDetection
  rw [if_neg h]
  rfl

lemma readLoop_data_step (eng : Engine) (d : Detector) (buffer bs : List Nat)
    (trace : List (List Nat)) (rest : List ReadEvent) (hbs : ¬ bs.length = 0)
    (hout : (d.processChunk eng (writeBuf buffer bs)).2.1 = none) :
    readLoop eng d buffer trace (ReadEvent.data bs :: rest) =
      readLoop eng (d.processChunk eng (writeBuf buffer bs)).1 (writeBuf buffer bs)
        (trace ++ [writeBuf buffer bs]) rest := by
  simp only [readLoop]
  rw [if_neg hbs]
  simp only [hout]

lemma readLoop_eofData_step (eng : Engine) (d : Detector) (buffer bs : List Nat)
    (trace : List (List Nat)) (rest : List ReadEvent) :
    readLoop eng d buffer trace (ReadEvent.eofData bs :: rest) =
      LoopResult.done (d.processChunk eng (writeBuf buffer bs)).2.1
        (d.processChunk eng (writeBuf buffer bs)).1 (trace ++ [writeBuf buffer bs]) := by
  simp only [readLoop]

lemma buf3_length_ne : ¬ buf3.length = 0 := by
  rw [buf3_length]; decide

lemma buf4_length_ne : ¬ buf4.length = 0 := by
  rw [buf4_length]; decide

lemma c3Run_eval :
    c3Run = LoopResult.done none
      ({ NewDetector "res" with initialized := true, silenceElapsed := 0 })
      [buf3, buf3] := by
  unfold c3Run Detector.ReadAndDetect
  rw [readLoop_data_step _ _ _ _ _ _ (by decide)
    (by rw [buf3_writeBuf, processChunk_zero _ _ buf3_length_ne])]
  rw [buf3_writeBuf, processChunk_zero _ _ buf3_length_ne]
  rw [readLoop_eofData_step, writeBuf_nil, processChunk_zero _ _ buf3_length_ne]
  rfl

lemma c4Run_eval :
    c4Run = LoopResult.done none
      ({ NewDetector "res" with initialized := true, silenceElapsed := 0 })
      [buf4, buf4] := by
  unfold c4Run Detector.ReadAndDetect
  rw [readLoop_data_step _ _ _ _ _ _ (by decide)
    (by rw [buf4_writeBuf, processChunk_zero _ _ buf4_length_ne])]
  rw [buf4_writeBuf, processChunk_zero _ _ buf4_length_ne]
  rw [readLoop_eofData_step, writeBuf_nil, processChunk_zero _ _ buf4_length_ne]
  rfl

/-- C3: after a successful read of n = 4 bytes, the loop does NOT pass the
first 4 bytes to detection: `runDetection` receives the entire fixed 2048-byte
buffer (the 4 new bytes followed by 2044 stale zero bytes) on every pass,
because the source ignores the returned byte count `n`.  (The error-propagation
half of the claim does hold; the first-n-bytes half is what fails.) -/
theorem c3_full_buffer_detection :
    c3Run.trace.map List.length = [2048, 2048] ∧
    c3Run.trace.head? = some buf3 ∧
    c3Run.trace.head? ≠ some [1, 2, 3, 4] ∧
    c3Run.errOut = none := by
  rw [c3Run_eval]
  refine ⟨?_, rfl, ?_, rfl⟩
  · simp only [LoopResult.trace, List.map_cons, List.map_nil, buf3_length]
  · intro h
    have h2 : buf3.length = ([1, 2, 3, 4] : List Nat).length :=
      congrArg List.length (Option.some.inj h)
    rw [buf3_length] at h2
    exact absurd h2 (by decide)

/-- C4: at end-of-stream with zero leftover bytes, the final detection pass is
NOT the empty-chunk no-op: the unchanged 2048-byte buffer (the previous chunk,
already processed once) is fed to the engine again, so the empty-chunk
short-circuit is never reached from `ReadAndDetect`; the loop does still
terminate cleanly with a nil error. -/
theorem c4_eof_reprocesses_stale_buffer :
    c4Run.errOut = none ∧
    c4Run.trace.length = 2 ∧
    c4Run.trace.getLast? = c4Run.trace.head? ∧
    c4Run.trace.getLast? ≠ some [] ∧
    (c4Run.trace.getLastD []).length = 2048 := by
  rw [c4Run_eval]
  refine ⟨rfl, rfl, rfl, ?_, ?_⟩
  · intro h
    have h2 : buf4.length = ([] : List Nat).length :=
      congrArg List.length (Option.some.inj h)
    rw [buf4_length] at h2
    exact absurd h2 (by decide)
  · exact buf4_length

/-- A detector with accumulated silence credit, used to refute C6 as stated. -/
def c6Detector : Detector := { NewDetector "res" with silenceElapsed := 1000000000 }

/-- C6 counterexample: an empty chunk yields detection result 0 (not the
silence code) through the short-circuit, yet `silenceElapsed` is left
unchanged (here 1 s), so a non-silence result does not always reset the
accumulator to zero. -/
theorem c6_empty_chunk_keeps_elapsed :
    (c6Detector.runDetection zeroEngine []).2 = 0 ∧
    (c6Detector.runDetection zeroEngine []).2 ≠ snowboyResultSilence ∧
    (c6Detector.processChunk zeroEngine []).1.silenceElapsed = 1000000000 ∧
    (c6Detector.processChunk zeroEngine []).1.silenceElapsed ≠ 0 := by
  decide

/-- C6 amended: processing a NONEMPTY chunk whose detection result is not the
silence code -2 resets `silenceElapsed` to zero, and result 0 in `route` never
invokes a handler, returns no error, and leaves the state unchanged. -/
theorem c6_nonsilence_resets :
    (∀ (eng : Engine) (d : Detector) (data : List Nat),
      data.length ≠ 0 →
      (d.runDetection eng data).2 ≠ snowboyResultSilence →
      (d.runDetection eng data).1.silenceElapsed = 0)
  ∧ ∀ d : Detector, d.route snowboyResultNoDetection = (d, none, none) := by
  constructor
  · intro eng d data hne hres
    by_cases hr : eng.detect data = snowboyResultSilence
    · exact absurd (by simp [Detector.runDetection, hne, hr]) hres
    · simp [Detector.runDetection, hne, hr]
  · intro d
    rfl

/-- C6 witness: the amended theorem at a concrete nonempty chunk whose result
is 0, and the result-0 no-op at a concrete detector. -/
theorem c6_nonsilence_resets_witness :
    ((NewDetector "w6").runDetection zeroEngine [9]).1.silenceElapsed = 0 ∧
    (NewDetector "w6").route snowboyResultNoDetection = (NewDetector "w6", none, none) :=
  ⟨c6_nonsilence_resets.1 zeroEngine (NewDetector "w6") [9] (by decide) (by decide),
   c6_nonsilence_resets.2 (NewDetector "w6")⟩

/-- C7: a positive result code with no bound handler routes to the `NoHandler`
("No handler installed") error with the state unchanged; a silence result with
no silence handler registered likewise routes to `NoHandler`; result -1 routes
to the fatal `SnowboyLibraryError`. -/
theorem c7_unbound_result_errors :
    (∀ (d : Detector) (k : Int), 0 < k → lookupKey d.handlers k = none →
      d.route k = (d, some GoError.noHandler, none))
  ∧ (∀ d : Detector, lookupKey d.handlers snowboyResultSilence = none →
      d.route snowboyResultSilence = (d, some GoError.noHandler, none))
  ∧ ∀ d : Detector, d.route snowboyResultError = (d, some GoError.snowboyLibraryError, none) := by
  refine ⟨?_, ?_, ?_⟩
  · intro d k hk hlk
    have h1 : ¬ k = snowboyResultError := by
      simp only [snowboyResultError]; omega
    have h2 : ¬ k = snowboyResultNoDetection := by
      simp only [snowboyResultNoDetection]; omega
    simp [Detector.route, h1, h2, hlk]
  · intro d hlk
    simp [Detector.route, snowboyResultSilence, snowboyResultError,
      snowboyResultNoDetection, hlk]
    simp only [snowboyResultSilence] at hlk
    simp [hlk]
  · intro d
    rfl

/-- C7 witness: `c7_unbound_result_errors` applied to a fresh detector (empty
handlers map) at codes 5, -2 and -1. -/
theorem c7_unbound_result_errors_witness :
    (NewDetector "w7").route 5 = (NewDetector "w7", some GoError.noHandler, none) ∧
    (NewDetector "w7").route snowboyResultSilence =
      (NewDetector "w7", some GoError.noHandler, none) ∧
    (NewDetector "w7").route snowboyResultError =
      (NewDetector "w7", some GoError.snowboyLibraryError, none) :=
  ⟨c7_unbound_result_errors.1 (NewDetector "w7") 5 (by decide) (by decide),
   c7_unbound_result_errors.2.1 (NewDetector "w7") (by decide),
   c7_unbound_result_errors.2.2 (NewDetector "w7")⟩

/-- C8: `Close` on an uninitialized detector returns the "snowboy not
initialize" error and leaves the state unchanged; on an initialized detector
the first `Close` returns nil and marks it uninitialized, so a second `Close`
returns the error again. -/
theorem c8_close_lifecycle : ∀ d : Detector,
    (d.initialized = false → d.Close = (d, some GoError.notInitialized))
  ∧ (d.initialized = true →
      d.Close.2 = none ∧ d.Close.1.initialized = false ∧
      d.Close.1.Close.2 = some GoError.notInitialized) := by
  intro d
  constructor
  · intro h
    simp [Detector.Close, h]
  · intro h
    simp [Detector.Close, h]

/-- An already-initialized detector, for the C8 witness. -/
def c8Init : Detector := { NewDetector "w8" with initialized := true }

/-- C8 witness: `c8_close_lifecycle` at a never-initialized detector and at an
initialized one. -/
theorem c8_close_lifecycle_witness :
    (NewDetector "w8").Close = (NewDetector "w8", some GoError.notInitialized) ∧
    (c8Init.Close.2 = none ∧ c8Init.Close.1.initialized = false ∧
      c8Init.Close.1.Close.2 = some GoError.notInitialized) :=
  ⟨(c8_close_lifecycle (NewDetector "w8")).1 (by decide),
   (c8_close_lifecycle c8Init).2 (by decide)⟩

/-- C9: `HandleSilence` (and `HandleSilenceFunc`) leave the joined model and
sensitivity strings unchanged, along with every field other than the handlers
map and the silence threshold;  `Handle` is the operation that appends to the
two joined strings (with a separator exactly when the handlers map is
nonempty). -/
theorem c9_handle_silence_frame : ∀ (d : Detector) (t : Int) (h f : Nat) (hw : Hotword),
    (d.HandleSilence t h).modelStr = d.modelStr ∧
    (d.HandleSilence t h).sensitivityStr = d.sensitivityStr ∧
    (d.HandleSilence t h).silenceElapsed = d.silenceElapsed ∧
    (d.HandleSilence t h).initialized = d.initialized ∧
    (d.HandleSilence t h).ResourceFile = d.ResourceFile ∧
    (d.HandleSilence t h).AudioGain = d.AudioGain ∧
    (d.HandleSilence t h).silenceThreshold = t ∧
    (d.HandleSilenceFunc t f).modelStr = d.modelStr ∧
    (d.HandleSilenceFunc t f).sensitivityStr = d.sensitivityStr ∧
    (d.Handle hw h).modelStr =
      (if d.handlers.length > 0 then d.modelStr ++ "," else d.modelStr) ++ hw.Model ∧
    (d.Handle hw h).sensitivityStr =
      (if d.handlers.length > 0 then d.sensitivityStr ++ "," else d.sensitivityStr) ++
        formatF2 hw.Sensitivity := by
  intro d t h f hw
  refine ⟨rfl, rfl, rfl, rfl, rfl, rfl, rfl, rfl, rfl, ?_, ?_⟩
  · by_cases hl : d.handlers.length > 0
    · simp [Detector.Handle, hl]
    · simp [Detector.Handle, hl]
  · by_cases hl : d.handlers.length > 0
    · simp [Detector.Handle, hl]
    · simp [Detector.Handle, hl]

/-- C10: `route` never increases `silenceElapsed` (it is left unchanged or
reset to zero), and in `runDetection` any result other than the silence code
leaves `silenceElapsed` at zero or unchanged — accumulation happens only on
silence results. -/
theorem c10_route_never_accumulates :
    (∀ (d : Detector) (r : Int),
      (d.route r).1.silenceElapsed = d.silenceElapsed ∨
      (d.route r).1.silenceElapsed = 0)
  ∧ ∀ (eng : Engine) (d : Detector) (data : List Nat),
      (d.runDetection eng data).2 ≠ snowboyResultSilence →
      (d.runDetection eng data).1.silenceElapsed = 0 ∨
      (d.runDetection eng data).1.silenceElapsed = d.silenceElapsed := by
  constructor
  · intro d r
    by_cases h1 : r = snowboyResultError
    · simp [Detector.route, h1]
    · by_cases h2 : r = snowboyResultNoDetection
      · simp [Detector.route, snowboyResultError, snowboyResultNoDetection, h1, h2]
      · cases hl : lookupKey d.handlers r with
        | none => simp [Detector.route, h1, h2, hl]
        | some hk =>
          by_cases h3 : r = snowboyResultSilence ∧ d.silenceElapsed < d.silenceThreshold
          · unfold Detector.route
            rw [if_neg h1, if_pos h2]
            simp only [hl]
            rw [if_pos h3]
            exact Or.inl rfl
          · unfold Detector.route
            rw [if_neg h1, if_pos h2]
            simp only [hl]
            rw [if_neg h3]
            exact Or.inr rfl
  · intro eng d data hres
    by_cases hne : data.length = 0
    · right
      simp [Detector.runDetection, hne]
    · by_cases hr : eng.detect data = snowboyResultSilence
      · exact absurd (by simp [Detector.runDetection, hne, hr]) hres
      · left
        simp [Detector.runDetection, hne, hr]

/-- C10 witness: `c10_route_never_accumulates` at a fresh detector, routing
code 3 and running detection on a concrete nonempty chunk with result 0. -/
theorem c10_route_never_accumulates_witness :
    (((NewDetector "wa").route 3).1.silenceElapsed = (NewDetector "wa").silenceElapsed ∨
      ((NewDetector "wa").route 3).1.silenceElapsed = 0) ∧
    (((NewDetector "wa").runDetection zeroEngine [1]).1.silenceElapsed = 0 ∨
      ((NewDetector "wa").runDetection zeroEngine [1]).1.silenceElapsed =
        (NewDetector "wa").silenceElapsed) :=
  ⟨c10_route_never_accumulates.1 (NewDetector "wa") 3,
   c10_route_never_accumulates.2 zeroEngine (NewDetector "wa") [1] (by decide)⟩

end GoSnowboy
